import Mathlib

/-!
Shallow embedding of the transcript-acquisition core of the
smart-youtube-backend repository (videoController): the video-id
extractor, the audio-transcription subprocess bridge, the four-method
transcript fallback orchestrator, and the processVideo route handler.

External collaborators (the caption library, the two subprocess tools,
the HTTP client, the document store, the LLM client) are modelled as
explicit stub outcomes supplied through environment records; the
filesystem is modelled as the presence bit of the one temporary audio
path the code manipulates.
-/

deriving instance DecidableEq for Except

namespace SmartYT

/-! ### Video-ID extractor (`extractVideoId`) -/

/-- The character class `[a-zA-Z0-9_-]` of the extraction regexes. -/
def isIdChar (c : Char) : Bool :=
  c.isAlphanum || c == '_' || c == '-'

/-- Match a literal character sequence at the head of the input,
returning the remainder (regex literal matching). -/
def dropLit : List Char → List Char → Option (List Char)
  | [], t => some t
  | _ :: _, [] => none
  | x :: l, c :: t => if x = c then dropLit l t else none

/-- Take exactly `n` identifier characters from the head of the input
(the `([a-zA-Z0-9_-]{11})` capture group); fails if fewer are present. -/
def grabId : Nat → List Char → Option (List Char)
  | 0, _ => some []
  | _ + 1, [] => none
  | n + 1, c :: t => if isIdChar c then (grabId n t).map (c :: ·) else none

/-- Try one unanchored-pattern position: a first character satisfying
the class `first`, then the literal `rest`, then the 11-character
identifier capture. -/
def matchClassLit (first : Char → Bool) (rest : List Char) : List Char → Option (List Char)
  | [] => none
  | c :: cs =>
    if first c then
      match dropLit rest cs with
      | some t => grabId 11 t
      | none => none
    else none

/-- Leftmost-match scan of an unanchored pattern, as a JS `String.match`
against a regex without anchors: try each start position left to right. -/
def scan (m : List Char → Option (List Char)) : List Char → Option (List Char)
  | [] => none
  | c :: cs =>
    match m (c :: cs) with
    | some r => some r
    | none => scan m cs

/-- Pattern (a): `/[?&]v=([a-zA-Z0-9_-]{11})/`. -/
def patA : List Char → Option (List Char) :=
  scan (matchClassLit (fun c => c == '?' || c == '&') ['v', '='])

/-- Pattern (b): `/youtu\.be\/([a-zA-Z0-9_-]{11})/`. -/
def patB : List Char → Option (List Char) :=
  scan (matchClassLit (fun c => c == 'y') "outu.be/".toList)

/-- Pattern (c): `/youtube\.com\/embed\/([a-zA-Z0-9_-]{11})/`. -/
def patC : List Char → Option (List Char) :=
  scan (matchClassLit (fun c => c == 'y') "outube.com/embed/".toList)

/-- `extractVideoId` on the trimmed character list: the four pattern
matches in source order, first success wins; pattern (d) is the anchored
`/^([a-zA-Z0-9_-]{11})$/`. -/
def extractVideoIdL (s : List Char) : Option (List Char) :=
  match patA s with
  | some r => some r
  | none =>
    match patB s with
    | some r => some r
    | none =>
      match patC s with
      | some r => some r
      | none => if s.all isIdChar && s.length == 11 then some s else none

/-- JS `String.prototype.trim`: strip leading and trailing whitespace. -/
def trimL (s : List Char) : List Char :=
  ((s.dropWhile Char.isWhitespace).reverse.dropWhile Char.isWhitespace).reverse

/-- `extractVideoId(url)`: trim, then the four pattern matches in order;
`none` models the JS `null`. -/
def extractVideoId (url : String) : Option String :=
  (extractVideoIdL (trimL url.toList)).map fun l => ⟨l⟩

example : extractVideoId "https://www.youtube.com/watch?v=dQw4w9WgXcQ" = some "dQw4w9WgXcQ" := by
  decide

example : extractVideoId "dQw4w9WgXcQ" = some "dQw4w9WgXcQ" := by decide

example : extractVideoId "not a url" = none := by decide

example : extractVideoId "https://youtu.be/dQw4w9WgXcQ" = some "dQw4w9WgXcQ" := by decide

example : extractVideoId "  https://www.youtube.com/embed/dQw4w9WgXcQ " = some "dQw4w9WgXcQ" := by
  decide

example : extractVideoId "?v=abcdefghijkl" = some "abcdefghijk" := by decide

/-! ### Audio transcription subprocess bridge (`transcribeAudio`) -/

/-- One segment of the Whisper JSON output (`{text: string, ...}`);
timing fields are discarded by the code, so only `text` is modelled. -/
structure WhisperSeg where
  text : String
deriving DecidableEq, Repr

/-- Stubbed outcome of the Whisper transcription subprocess:
`execFail` is a nonzero exit of `exec`, `malformedJson` a stdout that
`JSON.parse` rejects, `errObj` a parsed object with a truthy `error`
field, `segs` a parsed JSON array of segments. -/
inductive WhisperOutcome where
  | execFail (msg : String)
  | malformedJson (msg : String)
  | errObj (msg : String)
  | segs (l : List WhisperSeg)
deriving DecidableEq, Repr

/-- Stubbed behaviour of the external collaborators of `transcribeAudio`:
`ytDlpError` is `some msg` when the yt-dlp `exec` reports an error
(nonzero exit), `fileCreated` tells whether the expected `.mp3` file
exists after the yt-dlp run (it may exist even on error, partially
written), and `whisper` is the transcription subprocess outcome. -/
structure AudioEnv where
  ytDlpError : Option String
  fileCreated : Bool
  whisper : WhisperOutcome
deriving DecidableEq, Repr

/-- `transcribeAudio(videoId)`, with the filesystem modelled as the
presence bit of the file at the computed temporary path. Input: the
presence bit before the call; output: the promise outcome
(`Except.error` = reject, `Except.ok` = resolve) paired with the
presence bit after the call.

Source flow: delete any stale file; run yt-dlp (the file presence
becomes `fileCreated`); on exec error, delete the file if present and
reject; if the file is absent, throw, which the same catch turns into
delete-if-present and reject; otherwise run the Whisper subprocess,
whose callback first deletes the file, then rejects on exec error,
parse error or an `error` field, and otherwise resolves the segment
texts joined with single spaces. -/
def transcribeAudio (env : AudioEnv) (fs0 : Bool) : Except String String × Bool :=
  -- fs0 is only ever overwritten: stale cleanup, then the yt-dlp run.
  let _ := fs0
  match env.ytDlpError with
  | some e => (Except.error e, false)
  | none =>
    if env.fileCreated then
      match env.whisper with
      | .execFail e => (Except.error e, false)
      | .malformedJson e => (Except.error e, false)
      | .errObj e => (Except.error e, false)
      | .segs l => (Except.ok (String.intercalate " " (l.map (·.text))), false)
    else
      (Except.error "Audio file not created after yt-dlp run", false)

/-! ### Transcript fallback orchestrator (`getTranscript`) -/

/-- One caption item returned by `YoutubeTranscript.fetchTranscript`
(only the `text` field is used by the code). -/
structure CaptionItem where
  text : String
deriving DecidableEq, Repr

/-- Stubbed outcome of method 1, the `youtube-transcript` library call:
either it resolves with a list of caption items or it throws. -/
inductive Method1Outcome where
  | items (l : List CaptionItem)
  | throws (msg : String)
deriving DecidableEq, Repr

/-- Parsed shape of a Python caption script's stdout: `malformed` when
`JSON.parse` throws; otherwise the `success` flag (false also covers a
missing flag, both falsy), the `transcript` string and the `error`
string of the emitted object. -/
inductive PyOutput where
  | malformed (msg : String)
  | parsed (success : Bool) (transcript : String) (error : String)
deriving DecidableEq, Repr

/-- Stubbed outcome of one `exec` of the caption script: `fail` is a
nonzero exit (with its error), `output` an exit 0 whose stdout parses
as the given `PyOutput`. -/
inductive ExecOutcome where
  | fail (msg : String)
  | output (o : PyOutput)
deriving DecidableEq, Repr

/-- One segment of a timed-text event (`segs` entry, `utf8` field). -/
structure Seg where
  utf8 : String
deriving DecidableEq, Repr

/-- Stubbed outcome of method 3, the raw page fetch: the page fetch may
throw, the caption-URL regex may not match (the code then falls through
without throwing), the caption fetch may throw, the payload may lack an
`events` field, or it yields the events, each with an optional `segs`
list (`none` models a null/absent `segs`). -/
inductive Method3Outcome where
  | fetchFail (msg : String)
  | noCaptionUrl
  | captionFetchFail (msg : String)
  | noEvents
  | events (evs : List (Option (List Seg)))
deriving DecidableEq, Repr

/-- Method 1 step of `getTranscript`: on a thrown error or an empty item
list the code falls through to method 2 (`none`); on a non-empty list it
returns the item texts joined with single spaces. -/
def method1Result : Method1Outcome → Option String
  | .items l =>
    if l.isEmpty then none
    else some (String.intercalate " " (l.map (·.text)))
  | .throws _ => none

/-- Evaluate a parsed caption-script output as the code does: parse
error rejects with it; `success` truthy resolves the `transcript` field
(no emptiness check); otherwise reject with the `error` field. -/
def runPyOutput : PyOutput → Except String String
  | .malformed msg => .error msg
  | .parsed success transcript err =>
    if success then .ok transcript else .error err

/-- Method 2 of `getTranscript`: run the venv-python caption script; on
exec error, run the global `python3` fallback, and if that exec also
errors, reject with the original (primary) error; any exit-0 output is
evaluated by `runPyOutput`. -/
def method2 (primary secondary : ExecOutcome) : Except String String :=
  match primary with
  | .output o => runPyOutput o
  | .fail e1 =>
    match secondary with
    | .fail _ => .error e1
    | .output o => runPyOutput o

/-- Method 3 step of `getTranscript`: a thrown fetch, a missing caption
URL or a missing `events` field all fall through to method 4 (`none`);
an `events` payload returns, per event, the `utf8` fields of its `segs`
joined with no separator (an absent `segs` contributes the empty
string), the events themselves joined with single spaces. -/
def method3 : Method3Outcome → Option String
  | .fetchFail _ => none
  | .noCaptionUrl => none
  | .captionFetchFail _ => none
  | .noEvents => none
  | .events evs =>
    some (String.intercalate " "
      (evs.map fun e =>
        match e with
        | some segs => String.join (segs.map (·.utf8))
        | none => ""))

/-- Which acquisition methods a `getTranscript` run invoked. -/
inductive MethodTag where
  | m1
  | m2
  | m3
  | m4
deriving DecidableEq, Repr

/-- Stubbed behaviour of all collaborators of one `getTranscript` run. -/
structure Env where
  m1 : Method1Outcome
  m2primary : ExecOutcome
  m2secondary : ExecOutcome
  m3 : Method3Outcome
  m4 : AudioEnv
deriving DecidableEq, Repr

/-- Outcome of a `getTranscript` run: the returned/thrown value, the
list of methods invoked in order, and the temporary-file presence bit
after the run. -/
structure GTResult where
  result : Except String String
  invoked : List MethodTag
  fileExists : Bool
deriving DecidableEq, Repr

/-- `getTranscript(videoId)`: methods 1–4 in order, each wrapped in its
own try/catch; the first success returns; if all four fail the function
throws `Could not fetch transcript from any source` (the method-4 cause
is logged and discarded like the others). -/
def getTranscript (env : Env) (fs0 : Bool) : GTResult :=
  match method1Result env.m1 with
  | some t => ⟨.ok t, [.m1], fs0⟩
  | none =>
    match method2 env.m2primary env.m2secondary with
    | .ok t => ⟨.ok t, [.m1, .m2], fs0⟩
    | .error _ =>
      match method3 env.m3 with
      | some t => ⟨.ok t, [.m1, .m2, .m3], fs0⟩
      | none =>
        match transcribeAudio env.m4 fs0 with
        | (.ok t, fs1) => ⟨.ok t, [.m1, .m2, .m3, .m4], fs1⟩
        | (.error _, fs1) =>
          ⟨.error "Could not fetch transcript from any source", [.m1, .m2, .m3, .m4], fs1⟩

/-! ### `processVideo` route handler -/

/-- One quiz question of the generated content. -/
structure QuizQ where
  question : String
  options : List String
  correctAnswer : String
deriving DecidableEq, Repr

/-- The content fields produced by `generateLearningContent`. -/
structure GenContent where
  summary : String
  keyPoints : List String
  quizQuestions : List QuizQ
deriving DecidableEq, Repr

/-- A video document as constructed/persisted by `processVideo`
(`createdAt` is impure wall-clock time and is not modelled). -/
structure VideoDoc where
  youtubeUrl : String
  videoId : String
  transcript : String
  summary : String
  keyPoints : List String
  quizQuestions : List QuizQ
deriving DecidableEq, Repr

/-- The hard-coded `DEMO_MODE` flag of `processVideo`. -/
def DEMO_MODE : Bool := true

/-- The fixed transcript text of the demo-content object. -/
def demoTranscript : String :=
  "This is a demonstration transcript about Python programming fundamentals including variables, data types, functions, and object-oriented programming concepts."

/-- The fixed summary text of the demo-content object. -/
def demoSummary : String :=
  "This video covers essential Python programming concepts. It introduces core fundamentals like variables, data types (strings, integers, lists, dictionaries), control flow statements (if-else, loops), functions, and object-oriented programming principles. Perfect for beginners learning Python."

/-- The fixed key points of the demo-content object. -/
def demoKeyPoints : List String :=
  [ "Python variables and data types"
  , "Control flow with if-else and loops"
  , "Defining and using functions"
  , "Object-oriented programming basics"
  , "Working with lists and dictionaries" ]

/-- The fixed quiz questions of the demo-content object. -/
def demoQuizQuestions : List QuizQ :=
  [ ⟨"What is the correct way to declare a variable in Python?",
      ["var x = 5", "int x = 5", "x = 5", "declare x = 5"], "x = 5"⟩
  , ⟨"Which of these is a mutable data type in Python?",
      ["tuple", "string", "list", "integer"], "list"⟩
  , ⟨"What keyword is used to define a function in Python?",
      ["function", "def", "func", "define"], "def"⟩
  , ⟨"Which method is used to add an element to a list?",
      ["add()", "append()", "insert()", "push()"], "append()"⟩
  , ⟨"What is the output of: print(type([1, 2, 3]))?",
      ["<class \x27tuple\x27>", "<class \x27list\x27>", "<class \x27array\x27>", "<class \x27dict\x27>"],
      "<class \x27list\x27>"⟩
  , ⟨"How do you create a dictionary in Python?",
      ["dict = []", "dict = ()", "dict = \x7b\x7d", "dict = <>"], "dict = \x7b\x7d"⟩
  , ⟨"What does the \x27self\x27 parameter represent in a class method?",
      ["The class itself", "The method name", "The instance of the class", "A static variable"],
      "The instance of the class"⟩
  , ⟨"Which operator is used for exponentiation in Python?",
      ["^", "**", "pow", "exp"], "**"⟩
  , ⟨"What will \x27len([1, 2, 3, 4, 5])\x27 return?",
      ["4", "5", "6", "Error"], "5"⟩
  , ⟨"How do you start a comment in Python?",
      ["//", "/*", "#", "--"], "#"⟩ ]

/-- The demo-content object returned on the demo-mode path: everything
fixed except the echoed URL and video id. -/
def demoContent (youtubeUrl videoId : String) : VideoDoc :=
  ⟨youtubeUrl, videoId, demoTranscript, demoSummary, demoKeyPoints, demoQuizQuestions⟩

/-- Steps of the post-demo `processVideo` pipeline, recorded to state
reachability properties. -/
inductive PVStep where
  | cacheCheck
  | orchestrate
  | generate
  | save
deriving DecidableEq, Repr

/-- The JSON payload of a `processVideo` response. -/
inductive PVPayload where
  | err (msg : String)
  | demo (d : VideoDoc)
  | cachedDoc (d : VideoDoc)
  | fresh (d : VideoDoc)
deriving DecidableEq, Repr

/-- A `processVideo` HTTP response: status code, payload, and the
pipeline steps that ran. -/
structure PVResponse where
  status : Nat
  payload : PVPayload
  steps : List PVStep
deriving DecidableEq, Repr

/-- Stubbed collaborators of the non-demo `processVideo` pipeline:
the cache lookup result (`none` also covers a DB error, which the code
recovers to `cached = null`), the orchestrator environment, the initial
temporary-file bit, and the content generator. -/
structure PVEnv where
  cache : Option VideoDoc
  tenv : Env
  fs0 : Bool
  gen : String → GenContent

/-- `processVideo(req, res)`: require a `youtubeUrl` body field, extract
the video id (400 on failure), then — because `DEMO_MODE` is `true` —
return the demo-content object; the cache check, `getTranscript`,
`generateLearningContent` and the DB save below the demo block are
modelled with their step trace (a DB save failure returns the same
object non-persisted, so both save arms yield the same response). A
thrown orchestrator error is caught by the outer handler as a 500. -/
def processVideo (penv : PVEnv) (body : Option String) : PVResponse :=
  match body with
  | none => ⟨400, .err "YouTube URL is required", []⟩
  | some youtubeUrl =>
    match extractVideoId youtubeUrl with
    | none => ⟨400, .err "Invalid YouTube URL", []⟩
    | some videoId =>
      if DEMO_MODE then
        ⟨200, .demo (demoContent youtubeUrl videoId), []⟩
      else
        match penv.cache with
        | some d => ⟨200, .cachedDoc d, [.cacheCheck]⟩
        | none =>
          match (getTranscript penv.tenv penv.fs0).result with
          | .error e => ⟨500, .err e, [.cacheCheck, .orchestrate]⟩
          | .ok transcript =>
            let c := penv.gen transcript
            ⟨200,
             .fresh ⟨youtubeUrl, videoId, transcript, c.summary, c.keyPoints, c.quizQuestions⟩,
             [.cacheCheck, .orchestrate, .generate, .save]⟩

/-! ### Lemmas about the pattern-matching primitives -/

lemma grabId_eq_of_all (n : Nat) :
    ∀ t : List Char, (∀ c ∈ t, isIdChar c = true) → n ≤ t.length →
      grabId n t = some (t.take n) := by
  induction n with
  | zero => intro t _ _; simp [grabId]
  | succ n ih =>
    intro t hall hlen
    cases t with
    | nil => simp at hlen
    | cons c cs =>
      have hc : isIdChar c = true := hall c (by simp)
      have hcs : ∀ x ∈ cs, isIdChar x = true := fun x hx => hall x (by simp [hx])
      have hlen' : n ≤ cs.length := by simpa using hlen
      simp [grabId, hc, ih cs hcs hlen']

lemma grabId_some_spec (n : Nat) :
    ∀ t r : List Char, grabId n t = some r →
      r.length = n ∧ r.all isIdChar = true := by
  induction n with
  | zero =>
    intro t r h
    simp [grabId] at h
    subst h
    simp
  | succ n ih =>
    intro t r h
    cases t with
    | nil => simp [grabId] at h
    | cons c cs =>
      by_cases hc : isIdChar c = true
      · simp [grabId, hc] at h
        obtain ⟨r', hr', hrr⟩ := h
        obtain ⟨h1, h2⟩ := ih cs r' hr'
        subst hrr
        simp [h1, hc, h2]
      · simp [grabId, Bool.eq_false_iff.mpr hc] at h

lemma matchClassLit_some_spec (f : Char → Bool) (rest t r : List Char)
    (h : matchClassLit f rest t = some r) :
    r.length = 11 ∧ r.all isIdChar = true := by
  cases t with
  | nil => simp [matchClassLit] at h
  | cons c cs =>
    by_cases hf : f c
    · simp [matchClassLit, hf] at h
      cases hd : dropLit rest cs with
      | none => rw [hd] at h; simp at h
      | some t' =>
        rw [hd] at h
        simp at h
        exact grabId_some_spec 11 t' r h
    · simp [matchClassLit, Bool.eq_false_iff.mpr hf] at h

lemma scan_some_spec (f : Char → Bool) (rest : List Char) :
    ∀ t r : List Char, scan (matchClassLit f rest) t = some r →
      r.length = 11 ∧ r.all isIdChar = true := by
  intro t
  induction t with
  | nil => intro r h; simp [scan] at h
  | cons c cs ih =>
    intro r h
    rw [scan] at h
    cases hm : matchClassLit f rest (c :: cs) with
    | some r' =>
      rw [hm] at h
      simp at h
      subst h
      exact matchClassLit_some_spec f rest (c :: cs) _ hm
    | none =>
      rw [hm] at h
      exact ih r h

lemma extractVideoIdL_some_spec (s r : List Char) (h : extractVideoIdL s = some r) :
    r.length = 11 ∧ r.all isIdChar = true := by
  unfold extractVideoIdL at h
  cases hA : patA s with
  | some rA =>
    rw [hA] at h
    simp at h
    subst h
    exact scan_some_spec _ _ s rA hA
  | none =>
    rw [hA] at h
    cases hB : patB s with
    | some rB =>
      rw [hB] at h
      simp at h
      subst h
      exact scan_some_spec _ _ s rB hB
    | none =>
      rw [hB] at h
      cases hC : patC s with
      | some rC =>
        rw [hC] at h
        simp at h
        subst h
        exact scan_some_spec _ _ s rC hC
      | none =>
        rw [hC] at h
        by_cases hcond : (s.all isIdChar && s.length == 11) = true
        · rw [hcond] at h
          simp at h
          subst h
          refine ⟨?_, ?_⟩
          · have := (Bool.and_eq_true _ _).mp hcond
            simpa using this.2
          · exact ((Bool.and_eq_true _ _).mp hcond).1
        · rw [Bool.eq_false_iff.mpr hcond] at h
          simp at h

lemma idChar_ne_of_nonid (c x : Char) (hc : isIdChar c = true) (hx : isIdChar x = false) :
    c ≠ x := by
  rintro rfl
  rw [hc] at hx
  exact Bool.true_eq_false.mp hx

lemma dropLit_none_of_nonid (x : Char) (hx : isIdChar x = false) :
    ∀ l t : List Char, x ∈ l → (∀ c ∈ t, isIdChar c = true) → dropLit l t = none := by
  intro l
  induction l with
  | nil => intro t hmem _; simp at hmem
  | cons y l' ih =>
    intro t hmem hall
    cases t with
    | nil => rfl
    | cons c cs =>
      by_cases hyc : y = c
      · subst hyc
        have hcid : isIdChar y = true := hall y (by simp)
        rcases List.mem_cons.mp hmem with hxy | hxl
        · subst hxy
          rw [hcid] at hx
          exact absurd hx (by simp)
        · simp [dropLit, ih cs hxl (fun c hc => hall c (by simp [hc]))]
      · simp [dropLit, hyc]

lemma matchClassLit_none_of_nonid (f : Char → Bool) (rest : List Char) (x : Char)
    (hx : isIdChar x = false) (hmem : x ∈ rest) :
    ∀ t : List Char, (∀ c ∈ t, isIdChar c = true) → matchClassLit f rest t = none := by
  intro t hall
  cases t with
  | nil => rfl
  | cons c cs =>
    have hd : dropLit rest cs = none :=
      dropLit_none_of_nonid x hx rest cs hmem (fun c hc => hall c (by simp [hc]))
    by_cases hf : f c
    · simp [matchClassLit, hf, hd]
    · simp [matchClassLit, Bool.eq_false_iff.mpr hf]

lemma scan_none_of_nonid (f : Char → Bool) (rest : List Char) (x : Char)
    (hx : isIdChar x = false) (hmem : x ∈ rest) :
    ∀ t : List Char, (∀ c ∈ t, isIdChar c = true) → scan (matchClassLit f rest) t = none := by
  intro t
  induction t with
  | nil => intro _; rfl
  | cons c cs ih =>
    intro hall
    rw [scan, matchClassLit_none_of_nonid f rest x hx hmem (c :: cs) hall]
    exact ih fun c hc => hall c (by simp [hc])

lemma scan_none_of_class_miss (f : Char → Bool) (rest : List Char)
    (hf : ∀ c, isIdChar c = true → f c = false) :
    ∀ t : List Char, (∀ c ∈ t, isIdChar c = true) → scan (matchClassLit f rest) t = none := by
  intro t
  induction t with
  | nil => intro _; rfl
  | cons c cs ih =>
    intro hall
    have hfc : f c = false := hf c (hall c (by simp))
    rw [scan]
    have hm : matchClassLit f rest (c :: cs) = none := by simp [matchClassLit, hfc]
    rw [hm]
    exact ih fun c hc => hall c (by simp [hc])

lemma scan_eq_some (m : List Char → Option (List Char)) (t r : List Char)
    (hne : t ≠ []) (h : m t = some r) : scan m t = some r := by
  cases t with
  | nil => exact absurd rfl hne
  | cons c cs =>
    unfold scan
    rw [h]

lemma idChar_class_qamp (c : Char) (hc : isIdChar c = true) :
    (c == '?' || c == '&') = false := by
  have h1 : c ≠ '?' := idChar_ne_of_nonid c '?' hc (by decide)
  have h2 : c ≠ '&' := idChar_ne_of_nonid c '&' hc (by decide)
  simp [h1, h2]

/-! ### Claim theorems -/

/-- C1: if acquisition method 1 (the `youtube-transcript` library fetch)
returns a non-empty list of caption items, `getTranscript` returns the
concatenated item texts immediately and methods 2, 3 and 4 are never
invoked, whatever the stubbed behaviour of the later methods. -/
theorem getTranscript_method1_short_circuit (env : Env) (fs0 : Bool)
    (l : List CaptionItem) (h : env.m1 = .items l) (hne : l ≠ []) :
    getTranscript env fs0 =
      ⟨.ok (String.intercalate " " (l.map (·.text))), [.m1], fs0⟩ := by
  unfold getTranscript
  rw [h]
  cases l with
  | nil => exact absurd rfl hne
  | cons a t => simp [method1Result]

def envC1 : Env :=
  ⟨.items [⟨"Hello"⟩, ⟨"world"⟩], .output (.parsed true "NOT THIS" ""),
   .output (.parsed true "NOR THIS" ""), .events [some [⟨"NOR"⟩, ⟨"THIS"⟩]],
   ⟨none, true, .segs [⟨"NOR"⟩, ⟨"THIS"⟩]⟩⟩

theorem getTranscript_method1_short_circuit_witness :
    getTranscript envC1 true = ⟨.ok "Hello world", [.m1], true⟩ :=
  (getTranscript_method1_short_circuit envC1 true [⟨"Hello"⟩, ⟨"world"⟩] rfl
      (by decide)).trans (by decide)

def envC2x : Env :=
  ⟨.throws "m1 down", .fail "venv down", .fail "py3 down", .fetchFail "net down",
   ⟨none, true, .execFail "whisper exploded"⟩⟩

/-- C2 counterexample: with all four methods failing and the fourth
method's cause being `whisper exploded`, `getTranscript` reports the
fixed aggregate error, not the fourth method's cause. -/
theorem getTranscript_all_fail_cause_counterexample :
    (getTranscript envC2x false).result = .error "Could not fetch transcript from any source" ∧
    (getTranscript envC2x false).result ≠ .error "whisper exploded" := by
  decide

/-- C2 (amended): if all four acquisition methods fail, `getTranscript`
fails with the fixed aggregated error `Could not fetch transcript from
any source`; the failures of all four methods — including the fourth —
are recovered locally, and no method's cause is propagated to the
caller. -/
theorem getTranscript_all_fail_aggregate (env : Env) (fs0 : Bool)
    (h1 : method1Result env.m1 = none)
    (h2 : ∃ e, method2 env.m2primary env.m2secondary = .error e)
    (h3 : method3 env.m3 = none)
    (h4 : ∃ e, (transcribeAudio env.m4 fs0).1 = .error e) :
    (getTranscript env fs0).result = .error "Could not fetch transcript from any source" ∧
    (getTranscript env fs0).invoked = [.m1, .m2, .m3, .m4] := by
  obtain ⟨e2, h2⟩ := h2
  obtain ⟨e4, h4⟩ := h4
  unfold getTranscript
  rw [h1, h2, h3]
  rcases hta : transcribeAudio env.m4 fs0 with ⟨r, fs1⟩
  rw [hta] at h4
  simp only at h4
  rw [h4]
  simp

theorem getTranscript_all_fail_aggregate_witness :
    (getTranscript envC2x false).result = .error "Could not fetch transcript from any source" ∧
    (getTranscript envC2x false).invoked = [.m1, .m2, .m3, .m4] :=
  getTranscript_all_fail_aggregate envC2x false (by decide)
    ⟨"venv down", by decide⟩ (by decide) ⟨"whisper exploded", by decide⟩

/-- C3: the temporary audio file is gone after `transcribeAudio`
completes, on every exit path — download failure, missing output file,
transcription failure, malformed output, error object or success —
regardless of whether a stale file existed beforehand. -/
theorem transcribeAudio_cleans_temp_file (env : AudioEnv) (fs0 : Bool) :
    (transcribeAudio env fs0).2 = false := by
  rcases env with ⟨e, f, w⟩
  cases e <;> cases f <;> cases w <;> rfl

def envC6x : Env :=
  ⟨.throws "m1 down", .fail "venv down", .fail "py3 down",
   .events [some [⟨"Hello"⟩, ⟨"world"⟩]], ⟨none, true, .execFail "unused"⟩⟩

/-- C6 counterexample: a method-3 timed-text event whose segments are
`Hello` and `world` yields `Helloworld` — segments within one event are
joined with no separator, so the single-space rule does not apply to
method 3's segments. -/
theorem method3_inner_join_counterexample :
    (getTranscript envC6x false).result = .ok "Helloworld" ∧
    (getTranscript envC6x false).result ≠ .ok "Hello world" := by
  decide

/-- C6 (amended): methods 1 and 4 return their item/segment texts
joined with single-space separators (so method 1 on
`[{text:"Hello"},{text:"world"}]` yields `Hello world`, and likewise
the method-4 Whisper segments); method 2 returns the caption script
transcript text verbatim, with no joining performed by the
orchestrator; method 3 joins the timed-text events with single-space
separators, but the segments within one event with no separator (an
event without a `segs` list contributes the empty string). Timing
metadata is discarded throughout. -/
theorem transcript_joining_rules :
    (∀ (env : Env) (fs0 : Bool) (l : List CaptionItem),
      env.m1 = .items l → l ≠ [] →
      (getTranscript env fs0).result = .ok (String.intercalate " " (l.map (·.text)))) ∧
    (∀ (env : Env) (fs0 : Bool) (t : String),
      method1Result env.m1 = none →
      method2 env.m2primary env.m2secondary = .ok t →
      (getTranscript env fs0).result = .ok t) ∧
    (∀ (env : Env) (fs0 : Bool) (evs : List (Option (List Seg))),
      method1Result env.m1 = none →
      (∃ e, method2 env.m2primary env.m2secondary = .error e) →
      env.m3 = .events evs →
      (getTranscript env fs0).result = .ok (String.intercalate " "
        (evs.map fun ev =>
          match ev with
          | some segs => String.join (segs.map (·.utf8))
          | none => ""))) ∧
    (∀ (env : Env) (fs0 : Bool) (l : List WhisperSeg),
      method1Result env.m1 = none →
      (∃ e, method2 env.m2primary env.m2secondary = .error e) →
      method3 env.m3 = none →
      env.m4 = ⟨none, true, .segs l⟩ →
      (getTranscript env fs0).result = .ok (String.intercalate " " (l.map (·.text)))) := by
  refine ⟨?_, ?_, ?_, ?_⟩
  · intro env fs0 l h hne
    unfold getTranscript
    rw [h]
    cases l with
    | nil => exact absurd rfl hne
    | cons a t => simp [method1Result]
  · intro env fs0 t h1 h2
    unfold getTranscript
    rw [h1, h2]
  · intro env fs0 evs h1 h2 h3
    obtain ⟨e2, h2⟩ := h2
    unfold getTranscript
    rw [h1, h2, h3]
    simp [method3]
  · intro env fs0 l h1 h2 h3 h4
    obtain ⟨e2, h2⟩ := h2
    unfold getTranscript
    rw [h1, h2, h3, h4]
    rfl

def envC6m1 : Env :=
  ⟨.items [⟨"Hello"⟩, ⟨"world"⟩], .fail "a", .fail "b", .noEvents,
   ⟨none, true, .execFail "c"⟩⟩

def envC6m2 : Env :=
  ⟨.throws "m1 down", .output (.parsed true "Hello world via py" ""), .fail "b",
   .noEvents, ⟨none, true, .execFail "c"⟩⟩

def envC6m4 : Env :=
  ⟨.throws "m1 down", .fail "venv down", .fail "py3 down", .noCaptionUrl,
   ⟨none, true, .segs [⟨"Hello"⟩, ⟨"world"⟩]⟩⟩

theorem transcript_joining_rules_witness :
    (getTranscript envC6m1 true).result = .ok "Hello world" ∧
    (getTranscript envC6m2 false).result = .ok "Hello world via py" ∧
    (getTranscript envC6x false).result = .ok "Helloworld" ∧
    (getTranscript envC6m4 false).result = .ok "Hello world" := by
  refine ⟨?_, ?_, ?_, ?_⟩
  · exact (transcript_joining_rules.1 envC6m1 true [⟨"Hello"⟩, ⟨"world"⟩] rfl
      (by decide)).trans (by decide)
  · exact transcript_joining_rules.2.1 envC6m2 false "Hello world via py"
      (by decide) (by decide)
  · exact (transcript_joining_rules.2.2.1 envC6x false [some [⟨"Hello"⟩, ⟨"world"⟩]]
      (by decide) ⟨"venv down", by decide⟩ rfl).trans (by decide)
  · exact (transcript_joining_rules.2.2.2 envC6m4 false [⟨"Hello"⟩, ⟨"world"⟩]
      (by decide) ⟨"venv down", by decide⟩ (by decide) rfl).trans (by decide)

def envC7x : Env :=
  ⟨.throws "m1 down", .output (.parsed true "" "unused"), .fail "unused2",
   .events [some [⟨"SHOULD"⟩, ⟨"NOT"⟩, ⟨"RUN"⟩]], ⟨none, true, .segs [⟨"NOR"⟩]⟩⟩

/-- C7 counterexample: when the primary interpreter exits 0 and emits a
JSON object with a truthy success flag but an empty transcript, method 2
succeeds with the empty string and the orchestrator does not advance to
method 3 — refuting the claimed non-empty-text success criterion. -/
theorem method2_empty_text_counterexample :
    (getTranscript envC7x false).result = .ok "" ∧
    (getTranscript envC7x false).invoked = [.m1, .m2] := by
  decide

/-- C7 (amended): method 2 succeeds exactly when a subprocess exits 0
and emits a JSON object with a truthy success flag — the transcript text
may be empty and is returned as a success; the secondary interpreter is
consulted only when the primary `exec` fails (an exit-0 primary output
settles the method regardless of the secondary stub); on every other
outcome — nonzero exit from both interpreters, malformed JSON, or a
falsy success flag — the method fails and the orchestrator advances to
method 3. -/
theorem method2_success_characterization :
    (∀ (o : PyOutput) (s s' : ExecOutcome), method2 (.output o) s = method2 (.output o) s') ∧
    (∀ (p s : ExecOutcome) (t : String),
      method2 p s = .ok t ↔
        ((∃ e, p = .output (.parsed true t e)) ∨
         (∃ e1 e2, p = .fail e1 ∧ s = .output (.parsed true t e2)))) ∧
    (∀ (env : Env) (fs0 : Bool) (e : String) (evs : List (Option (List Seg))),
      method1Result env.m1 = none →
      method2 env.m2primary env.m2secondary = .error e →
      env.m3 = .events evs →
      (getTranscript env fs0).invoked = [.m1, .m2, .m3]) := by
  refine ⟨fun o s s' => rfl, ?_, ?_⟩
  · intro p s t
    cases p with
    | output o =>
      cases o with
      | malformed m => simp [method2, runPyOutput]
      | parsed su tr er =>
        cases su <;> simp [method2, runPyOutput]
    | fail e1 =>
      cases s with
      | fail e2 => simp [method2]
      | output o =>
        cases o with
        | malformed m => simp [method2, runPyOutput]
        | parsed su tr er =>
          cases su <;> simp [method2, runPyOutput]
  · intro env fs0 e evs h1 h2 h3
    unfold getTranscript
    rw [h1, h2, h3]
    simp [method3]

def envC7y : Env :=
  ⟨.throws "m1 down", .fail "venv down", .fail "py3 down", .events [],
   ⟨none, true, .execFail "unused"⟩⟩

theorem method2_success_characterization_witness :
    method2 (.output (.parsed true "txt" "")) (.fail "ignored") =
      method2 (.output (.parsed true "txt" "")) (.output (.parsed true "other" "")) ∧
    method2 (.fail "e1") (.output (.parsed true "txt" "")) = .ok "txt" ∧
    (getTranscript envC7y false).invoked = [.m1, .m2, .m3] := by
  refine ⟨method2_success_characterization.1 _ _ _, ?_, ?_⟩
  · exact (method2_success_characterization.2.1 (.fail "e1")
      (.output (.parsed true "txt" "")) "txt").mpr (Or.inr ⟨"e1", "", rfl, rfl⟩)
  · exact method2_success_characterization.2.2 envC7y false "venv down" []
      (by decide) (by decide) rfl

/-- C8 counterexample: a successful yt-dlp run followed by a Whisper
subprocess that exits 0 and prints the JSON array `[]` makes
`transcribeAudio` resolve with the empty transcript — a success with
empty text, not a failure. -/
theorem transcribeAudio_empty_segments_counterexample :
    transcribeAudio ⟨none, true, .segs []⟩ false = (.ok "", false) := by
  decide

/-- C8 (amended): `transcribeAudio` fails in exactly these cases — the
download tool reports an error, the output file is absent after the
download, the speech-to-text subprocess exits nonzero, its stdout is
malformed JSON, or it parses to an object with an explicit error field.
A successful subprocess run parsing to an empty segment array is a
success with empty transcript text, not a failure. -/
theorem transcribeAudio_failure_characterization (env : AudioEnv) (fs0 : Bool) :
    (∃ e, (transcribeAudio env fs0).1 = Except.error e) ↔
      (env.ytDlpError ≠ none ∨ env.fileCreated = false ∨
       (∃ m, env.whisper = .execFail m) ∨
       (∃ m, env.whisper = .malformedJson m) ∨
       (∃ m, env.whisper = .errObj m)) := by
  rcases env with ⟨e, f, w⟩
  cases e <;> cases f <;> cases w <;> simp [transcribeAudio]

/-- C9: when the primary (venv) interpreter `exec` of method 2 fails and
the global-`python3` fallback `exec` also fails, the method rejects with
the primary interpreter's error; the secondary error is discarded. -/
theorem method2_both_fail_primary_error (e1 e2 : String) :
    method2 (.fail e1) (.fail e2) = .error e1 :=
  rfl

/-- C4: whenever the request body holds a URL from which a video id is
extracted, `processVideo` returns the fixed demo-content object and runs
none of the pipeline steps below the demo block — no cache check, no
orchestrator, no content generation, no persistence — for every stubbed
behaviour of those collaborators. -/
theorem processVideo_demo_short_circuit (penv : PVEnv) (url vid : String)
    (h : extractVideoId url = some vid) :
    processVideo penv (some url) = ⟨200, .demo (demoContent url vid), []⟩ := by
  simp only [processVideo, h]
  rfl

def pvEnvC4 : PVEnv :=
  ⟨some ⟨"cachedUrl", "cachedVid", "t", "s", [], []⟩,
   ⟨.items [⟨"SHOULD"⟩, ⟨"NOT"⟩, ⟨"RUN"⟩], .fail "a", .fail "b", .noEvents,
    ⟨none, true, .execFail "c"⟩⟩,
   true, fun t => ⟨t, [t], []⟩⟩

theorem processVideo_demo_short_circuit_witness :
    processVideo pvEnvC4 (some "https://www.youtube.com/watch?v=dQw4w9WgXcQ") =
      ⟨200, .demo (demoContent "https://www.youtube.com/watch?v=dQw4w9WgXcQ" "dQw4w9WgXcQ"), []⟩ :=
  processVideo_demo_short_circuit pvEnvC4 _ "dQw4w9WgXcQ" (by decide)

/-- C5: `extractVideoId` is a total, deterministic, side-effect-free
function; every successful result is an 11-character token of the
identifier alphabet; the query-parameter, short-link, embed and bare
forms of the scenario URL all yield `dQw4w9WgXcQ`; and the malformed
inputs — the empty string, a wrong-length token, a string with no
recognizable pattern — yield `none`. -/
theorem extractVideoId_spec :
    (∀ (url r : String), extractVideoId url = some r →
      r.length = 11 ∧ r.data.all isIdChar = true) ∧
    extractVideoId "https://www.youtube.com/watch?v=dQw4w9WgXcQ" = some "dQw4w9WgXcQ" ∧
    extractVideoId "https://youtu.be/dQw4w9WgXcQ" = some "dQw4w9WgXcQ" ∧
    extractVideoId "https://www.youtube.com/embed/dQw4w9WgXcQ" = some "dQw4w9WgXcQ" ∧
    extractVideoId "dQw4w9WgXcQ" = some "dQw4w9WgXcQ" ∧
    extractVideoId "not a url" = none ∧
    extractVideoId "" = none ∧
    extractVideoId "dQw4w9WgXc" = none ∧
    extractVideoId "https://www.youtube.com/watch" = none := by
  refine ⟨?_, by decide, by decide, by decide, by decide, by decide, by decide,
    by decide, by decide⟩
  intro url r h
  unfold extractVideoId at h
  cases hL : extractVideoIdL (trimL url.toList) with
  | none => rw [hL] at h; simp at h
  | some l =>
    rw [hL] at h
    simp at h
    subst h
    exact extractVideoIdL_some_spec _ l hL

theorem extractVideoId_spec_witness :
    ("dQw4w9WgXcQ" : String).length = 11 ∧
    ("dQw4w9WgXcQ" : String).data.all isIdChar = true :=
  extractVideoId_spec.1 "dQw4w9WgXcQ" "dQw4w9WgXcQ" (by decide)

/-- C10: the query-parameter, short-link and embed patterns have no
right-hand boundary — for a `v=` token or path segment of 12 or more
identifier characters they return its first 11 characters rather than
`none`; only the bare form requires the entire string to be exactly 11
identifier characters, so a bare over-long token yields `none`. -/
theorem extract_patterns_no_right_boundary (s : List Char)
    (hall : ∀ c ∈ s, isIdChar c = true) (hlen : 12 ≤ s.length) :
    extractVideoIdL ('?' :: 'v' :: '=' :: s) = some (s.take 11) ∧
    extractVideoIdL ("youtu.be/".toList ++ s) = some (s.take 11) ∧
    extractVideoIdL ("youtube.com/embed/".toList ++ s) = some (s.take 11) ∧
    extractVideoIdL s = none := by
  have hgrab : grabId 11 s = some (s.take 11) :=
    grabId_eq_of_all 11 s hall (by omega)
  have hAs : patA s = none := scan_none_of_class_miss _ _ idChar_class_qamp s hall
  have hBs : patB s = none := scan_none_of_nonid _ _ '.' (by decide) (by decide) s hall
  have hCs : patC s = none := scan_none_of_nonid _ _ '.' (by decide) (by decide) s hall
  refine ⟨?_, ?_, ?_, ?_⟩
  · have hA : patA ('?' :: 'v' :: '=' :: s) = some (s.take 11) := by
      apply scan_eq_some
      · simp
      · show grabId 11 s = some (s.take 11)
        exact hgrab
    unfold extractVideoIdL
    rw [hA]
  · have hA : patA ("youtu.be/".toList ++ s) = none := by
      show patA s = none
      exact hAs
    have hB : patB ("youtu.be/".toList ++ s) = some (s.take 11) := by
      apply scan_eq_some
      · simp
      · show grabId 11 s = some (s.take 11)
        exact hgrab
    unfold extractVideoIdL
    rw [hA, hB]
  · have hA : patA ("youtube.com/embed/".toList ++ s) = none := by
      show patA s = none
      exact hAs
    have hB : patB ("youtube.com/embed/".toList ++ s) = none := by
      show patB s = none
      exact hBs
    have hC : patC ("youtube.com/embed/".toList ++ s) = some (s.take 11) := by
      apply scan_eq_some
      · simp
      · show grabId 11 s = some (s.take 11)
        exact hgrab
    unfold extractVideoIdL
    rw [hA, hB, hC]
  · have hlen11 : (s.length == 11) = false := by
      rw [beq_eq_false_iff_ne]
      omega
    unfold extractVideoIdL
    rw [hAs, hBs, hCs, hlen11]
    simp

theorem extract_patterns_no_right_boundary_witness :
    extractVideoIdL ('?' :: 'v' :: '=' :: "abcdefghijkl".toList) =
      some ("abcdefghijkl".toList.take 11) ∧
    extractVideoIdL ("youtu.be/".toList ++ "abcdefghijkl".toList) =
      some ("abcdefghijkl".toList.take 11) ∧
    extractVideoIdL ("youtube.com/embed/".toList ++ "abcdefghijkl".toList) =
      some ("abcdefghijkl".toList.take 11) ∧
    extractVideoIdL "abcdefghijkl".toList = none :=
  extract_patterns_no_right_boundary "abcdefghijkl".toList (by decide) (by decide)

end SmartYT
